import Mathlib

/-!
Verification of the Overwatch monitoring agent (src/agent/overwatch-agent.py).

The agent is single-threaded; its observable behaviour is the sequence of
HTTP calls it makes (register, heartbeat, metrics push, script poll, result
report) plus its process exit code.  We embed the agent shallowly: every
network send and the bootstrap backoff become `Event`s appended to a trace,
and every external influence (server responses, subprocess behaviour,
psutil/transport exceptions) is an explicit environment parameter.

Times are whole seconds as natural numbers; the code compares
`time.time() - last >= INTERVAL` with `last` initialised to 0, which our
`dueFor` mirrors.  (Truncated `Nat` subtraction agrees with the real-number
comparison here because every interval is positive.)
-/

namespace Overwatch

/-- `VERSION = "1.0.0"` in the source. -/
def VERSION : String := "1.0.0"

/-- `HEARTBEAT_INTERVAL = 30`. -/
def HEARTBEAT_INTERVAL : Nat := 30

/-- `METRICS_INTERVAL = 30`. -/
def METRICS_INTERVAL : Nat := 30

/-- `SCRIPT_POLL_INTERVAL = 10`. -/
def SCRIPT_POLL_INTERVAL : Nat := 10

/-- The fixed `timeout=300` passed to every `subprocess.run` call in
`_execute_script`. -/
def SCRIPT_TIMEOUT : Nat := 300

/-- Python's slice `s[:n]`: the first `n` characters of `s` (all of `s`
when it is shorter).  In this Lean version a `String` wraps a `List Char`,
so the slice is `List.take` on the character list. -/
def pyTake (n : Nat) (s : String) : String := ⟨s.data.take n⟩

/-- A script task as consumed by `_execute_script`: the dict fields
`execution_id`, `script_name`, `content` are read unconditionally and
`script_type` via `script.get("script_type", "bash")` (so it may be
absent, which we render as `none`). -/
structure ScriptTask where
  executionId : String
  scriptName : String
  content : String
  scriptType : Option String
deriving DecidableEq

/-- A script result as posted to `/api/v1/agent/scripts/{id}/result`:
fields `exit_code`, `stdout`, `stderr` (the JSON `stderr` is `null` when
the Python value is `None`). -/
structure ScriptResult where
  exitCode : Int
  stdout : String
  stderr : Option String
deriving DecidableEq

/-- The interpreters `_execute_script` can dispatch to: `["bash", "-c"]`,
`["powershell", "-Command"]`, or `[sys.executable, "-c"]`. -/
inductive Interp where
  | bash
  | powershell
  | python
deriving DecidableEq

/-- The interpreter chosen by `_execute_script`'s if/elif chain:
`script.get("script_type", "bash")`, then `in ("bash", "shell")` →
bash, `== "powershell"` → powershell, `== "python"` → python, and the
final `else` branch also runs `["bash", "-c", content]`. -/
def interpreterFor (scriptType : Option String) : Interp :=
  let st := scriptType.getD "bash"
  if st = "bash" ∨ st = "shell" then Interp.bash
  else if st = "powershell" then Interp.powershell
  else if st = "python" then Interp.python
  else Interp.bash

/-- How the spawned subprocess would behave, supplied by the environment:
either the process runs for `duration` seconds and finishes with the given
return code and captured output, or spawning/running raises an exception
(e.g. `FileNotFoundError` for a missing interpreter) whose `str()` is
`msg`. -/
inductive ScriptBehavior where
  | runs (duration : Nat) (returncode : Int) (stdout stderr : String)
  | raises (msg : String)
deriving DecidableEq

/-- What `subprocess.run(..., capture_output=True, text=True, timeout=t)`
does: if the process outlives the timeout it is killed and
`subprocess.TimeoutExpired` is raised (carrying whatever partial output was
captured, which `_execute_script` never reads); otherwise the
`CompletedProcess` is returned; an exception while spawning propagates. -/
inductive ExecOutcome where
  | completed (returncode : Int) (stdout stderr : String)
  | timedOut (partialStdout partialStderr : String)
  | raised (msg : String)
deriving DecidableEq

/-- `subprocess.run` with a timeout, as a function of the environment's
`ScriptBehavior`. -/
def subprocess_run (timeout : Nat) : ScriptBehavior → ExecOutcome
  | ScriptBehavior.runs d rc out err =>
      if timeout < d then ExecOutcome.timedOut out err
      else ExecOutcome.completed rc out err
  | ScriptBehavior.raises msg => ExecOutcome.raised msg

/-- The observable actions of the agent process: each HTTP send attempt,
plus the 30 s bootstrap backoff sleep.  `t` is the second (the loop
iteration's `time.time()`) at which the surrounding duty fired. -/
inductive Event where
  | registerAttempt (success : Bool)
  | sleepBackoff (seconds : Nat)
  | heartbeat (t : Nat)
  | metricsPush (t : Nat)
  | scriptPoll (t : Nat)
  | reportResult (t : Nat) (executionId : String) (r : ScriptResult)
deriving DecidableEq

/-- Transport outcome of one `session.post` of a script result, supplied
by the environment per post attempt: the send goes through, or it raises
(e.g. a connection error) with `str(e) = msg`. -/
inductive PostOutcome where
  | ok
  | raises (msg : String)
deriving DecidableEq

/-- `_execute_script`: run the payload under the 300 s timeout and post
the result.  The posts mirror the source's three sites and their failure
modes: the `try`-body post sends `returncode`/`stdout[:50000]`/
`stderr[:10000] if stderr else None`; if that post itself raises, the
generic `except` catches it and posts a second result `(-1, "", str(e))`
for the same execution id; the `TimeoutExpired` handler posts
`(-1, "", "Execution timed out")` and the generic handler posts
`(-1, "", str(e))`, with no truncation in either handler.  A post that
raises inside a handler (or the handler post for a failed `try`-body
post) is caught nowhere in `_execute_script`, so the exception propagates
to the caller — the returned `Option String` carries it.  `post1` is the
transport outcome of the first post attempted on the taken path, `post2`
that of the generic handler's post when the `try`-body post raised.
Every post attempt appears as a `reportResult` event, delivered or not. -/
def execute_script (now : Nat) (task : ScriptTask) (b : ScriptBehavior)
    (post1 post2 : PostOutcome) : List Event × Option String :=
  match subprocess_run SCRIPT_TIMEOUT b with
  | ExecOutcome.completed rc out err =>
      let r : ScriptResult :=
        { exitCode := rc
          stdout := pyTake 50000 out
          stderr := if err = "" then none else some (pyTake 10000 err) }
      match post1 with
      | PostOutcome.ok => ([Event.reportResult now task.executionId r], none)
      | PostOutcome.raises e =>
          match post2 with
          | PostOutcome.ok =>
              ([Event.reportResult now task.executionId r,
                Event.reportResult now task.executionId
                  { exitCode := -1, stdout := "", stderr := some e }], none)
          | PostOutcome.raises e2 =>
              ([Event.reportResult now task.executionId r,
                Event.reportResult now task.executionId
                  { exitCode := -1, stdout := "", stderr := some e }],
               some e2)
  | ExecOutcome.timedOut _ _ =>
      match post1 with
      | PostOutcome.ok =>
          ([Event.reportResult now task.executionId
            { exitCode := -1, stdout := ""
              stderr := some "Execution timed out" }], none)
      | PostOutcome.raises e =>
          ([Event.reportResult now task.executionId
            { exitCode := -1, stdout := ""
              stderr := some "Execution timed out" }], some e)
  | ExecOutcome.raised msg =>
      match post1 with
      | PostOutcome.ok =>
          ([Event.reportResult now task.executionId
            { exitCode := -1, stdout := "", stderr := some msg }], none)
      | PostOutcome.raises e =>
          ([Event.reportResult now task.executionId
            { exitCode := -1, stdout := "", stderr := some msg }], some e)

/-- One returned task together with how its execution and its result
posts would go: `behavior` is the subprocess's behaviour, `post1` the
transport outcome of the first result post `_execute_script` attempts on
its path, `post2` that of the generic handler's post when the `try`-body
post raised. -/
structure TaskRun where
  task : ScriptTask
  behavior : ScriptBehavior
  post1 : PostOutcome
  post2 : PostOutcome
deriving DecidableEq

/-- The server's answer to `GET /api/v1/agent/scripts`, as seen by
`poll_and_execute_scripts`: a non-200 status (early `return`), a transport
or JSON-parse exception (swallowed by the `except`), or a 200 with a list
of tasks, each paired with how its execution and result posts would go. -/
inductive PollResponse where
  | badStatus (code : Nat)
  | transportError (msg : String)
  | success (tasks : List TaskRun)
deriving DecidableEq

/-- The `for script in scripts` loop inside `poll_and_execute_scripts`:
each task is executed and reported in order; when `_execute_script`
propagates an exception (a result post raising in a handler position),
the surrounding `except` catches it and the remaining tasks of this poll
are skipped. -/
def execute_loop (now : Nat) : List TaskRun → List Event
  | [] => []
  | tr :: rest =>
      match execute_script now tr.task tr.behavior tr.post1 tr.post2 with
      | (evs, none) => evs ++ execute_loop now rest
      | (evs, some _) => evs

/-- `poll_and_execute_scripts`: issue the GET (always an attempt), then on
a 200 run `_execute_script` for each returned task in order until one of
them propagates; any failure is swallowed at this level. -/
def poll_and_execute_scripts (now : Nat) : PollResponse → List Event
  | PollResponse.badStatus _ => [Event.scriptPoll now]
  | PollResponse.transportError _ => [Event.scriptPoll now]
  | PollResponse.success ts => Event.scriptPoll now :: execute_loop now ts

/-- How the `heartbeat` duty's `try` body goes: the POST is sent, or an
exception is raised before the POST (e.g. in `psutil.boot_time()`), or
by the POST itself; either exception is swallowed. -/
inductive HeartbeatOutcome where
  | sent
  | exnBefore (msg : String)
  | exnDuring (msg : String)
deriving DecidableEq

/-- `heartbeat`: the POST attempt appears in the trace unless the body
raised before reaching it; failures are logged and swallowed. -/
def heartbeat (now : Nat) : HeartbeatOutcome → List Event
  | HeartbeatOutcome.sent => [Event.heartbeat now]
  | HeartbeatOutcome.exnBefore _ => []
  | HeartbeatOutcome.exnDuring _ => [Event.heartbeat now]

/-- How `collect_and_push_metrics`'s `try` body goes: sampling plus POST
succeed, or an exception fires during sampling (before the POST), or
during the POST; either is swallowed. -/
inductive MetricsOutcome where
  | pushed
  | exnBefore (msg : String)
  | exnDuring (msg : String)
deriving DecidableEq

/-- `collect_and_push_metrics`: sample psutil, POST the snapshot; any
exception is logged and swallowed. -/
def collect_and_push_metrics (now : Nat) : MetricsOutcome → List Event
  | MetricsOutcome.pushed => [Event.metricsPush now]
  | MetricsOutcome.exnBefore _ => []
  | MetricsOutcome.exnDuring _ => [Event.metricsPush now]

/-- The server's answer to `POST /api/v1/agent/register` as seen by
`register`: an HTTP response with its status code and (when the body
parses) the optional `agent_id` / `server_name` fields, or an exception
anywhere in the `try` (transport error, or `resp.json()` on a 200 whose
body is not JSON). -/
inductive RegisterOutcome where
  | response (statusCode : Nat) (agentId : Option String)
      (serverName : Option String)
  | transportError (msg : String)
deriving DecidableEq

/-- `register`'s return value: `True` exactly on `status_code == 200`
(with a parseable body); every other status and every exception yields
`False`. -/
def register_succeeds : RegisterOutcome → Bool
  | RegisterOutcome.response code _ _ => code == 200
  | RegisterOutcome.transportError _ => false

/-- The `self.agent_id` field after `register`: on a 200 it is overwritten
with `data.get("agent_id")` (which is `None` when the key is absent);
otherwise it is left unchanged. -/
def register_agent_id (current : Option String) :
    RegisterOutcome → Option String
  | RegisterOutcome.response code aid _ =>
      if code == 200 then aid else current
  | RegisterOutcome.transportError _ => current

/-- The three last-run stamps of `run`'s loop:
`last_heartbeat`, `last_metrics`, `last_script_poll`. -/
structure LoopState where
  lastHeartbeat : Nat
  lastMetrics : Nat
  lastScriptPoll : Nat
deriving DecidableEq

/-- All three stamps start at `0` (lines 186–188). -/
def initState : LoopState := ⟨0, 0, 0⟩

/-- The loop's due test `now - last >= interval` (on wall-clock seconds;
`last = 0` until the duty first fires). -/
def dueFor (interval last now : Nat) : Prop := interval ≤ now - last

instance (i l n : Nat) : Decidable (dueFor i l n) :=
  inferInstanceAs (Decidable (i ≤ n - l))

/-- One loop iteration's environment: the `time.time()` observed at the
top, and how each duty's external calls would go if attempted this
iteration. -/
structure TickEnv where
  now : Nat
  hb : HeartbeatOutcome
  metrics : MetricsOutcome
  poll : PollResponse
deriving DecidableEq

/-- The heartbeat leg of one iteration: events produced and the new
`last_heartbeat` (stamped to `now` whenever the duty fired, regardless of
its outcome). -/
def heartbeatStep (last now : Nat) (oc : HeartbeatOutcome) :
    List Event × Nat :=
  if dueFor HEARTBEAT_INTERVAL last now then (heartbeat now oc, now)
  else ([], last)

/-- The metrics leg of one iteration. -/
def metricsStep (last now : Nat) (oc : MetricsOutcome) :
    List Event × Nat :=
  if dueFor METRICS_INTERVAL last now then (collect_and_push_metrics now oc, now)
  else ([], last)

/-- The script-poll leg of one iteration. -/
def scriptPollStep (last now : Nat) (resp : PollResponse) :
    List Event × Nat :=
  if dueFor SCRIPT_POLL_INTERVAL last now then
    (poll_and_execute_scripts now resp, now)
  else ([], last)

/-- One iteration of `run`'s `while running` loop (lines 190–205): duties
checked and executed in source order heartbeat, metrics, script-poll, all
against the same `now`. -/
def tick (st : LoopState) (env : TickEnv) : LoopState × List Event :=
  let h := heartbeatStep st.lastHeartbeat env.now env.hb
  let m := metricsStep st.lastMetrics env.now env.metrics
  let s := scriptPollStep st.lastScriptPoll env.now env.poll
  (⟨h.2, m.2, s.2⟩, h.1 ++ m.1 ++ s.1)

/-- The loop run over a finite schedule of iterations (the list ends when
the signal handler has flipped `running` to `False`). -/
def runLoop (st : LoopState) : List TickEnv → List Event
  | [] => []
  | env :: rest => (tick st env).2 ++ runLoop (tick st env).1 rest

/-- Outcome of the whole process: its exit code (0 when `run` returns
after a graceful shutdown, 1 from the `sys.exit(1)` bootstrap path) and
the full event trace. -/
structure RunOutcome where
  exitCode : Nat
  events : List Event
deriving DecidableEq

/-- `run` (lines 178–205): register; on failure sleep 30 s and retry once;
on a second failure `sys.exit(1)`; otherwise run the loop until shutdown
and exit 0.  `o1`/`o2` are the server's answers to the (up to two)
registration attempts. -/
def run (o1 o2 : RegisterOutcome) (ticks : List TickEnv) : RunOutcome :=
  if register_succeeds o1 then
    { exitCode := 0
      events := Event.registerAttempt true :: runLoop initState ticks }
  else if register_succeeds o2 then
    { exitCode := 0
      events := Event.registerAttempt false :: Event.sleepBackoff 30 ::
        Event.registerAttempt true :: runLoop initState ticks }
  else
    { exitCode := 1
      events := [Event.registerAttempt false, Event.sleepBackoff 30,
        Event.registerAttempt false] }

/-- `self.agent_id` once `run` has passed bootstrap (it starts as `None`
and only `register` writes it). -/
def agent_id_after (o1 o2 : RegisterOutcome) : Option String :=
  if register_succeeds o1 then register_agent_id none o1
  else register_agent_id (register_agent_id none o1) o2

/-- Is the event one of the three periodic duties' sends (as opposed to a
bootstrap-phase event)? -/
def isDutyEvent : Event → Bool
  | Event.registerAttempt _ => false
  | Event.sleepBackoff _ => false
  | _ => true

/-- Is the event a registration POST attempt? -/
def isRegisterEv : Event → Bool
  | Event.registerAttempt _ => true
  | _ => false

/-- Is the event the bootstrap backoff sleep? -/
def isSleepEv : Event → Bool
  | Event.sleepBackoff _ => true
  | _ => false

/-- Is the event a heartbeat POST? -/
def isHeartbeatEv : Event → Bool
  | Event.heartbeat _ => true
  | _ => false

/-- Is the event a metrics POST? -/
def isMetricsEv : Event → Bool
  | Event.metricsPush _ => true
  | _ => false

/-- Is the event a script-poll GET? -/
def isScriptPollEv : Event → Bool
  | Event.scriptPoll _ => true
  | _ => false

/-- Is the event a script-poll GET or a script-result POST (the two sends
of the script duty)? -/
def isScriptEv : Event → Bool
  | Event.scriptPoll _ => true
  | Event.reportResult _ _ _ => true
  | _ => false

/-- The execution ids of the result reports in a trace, in order. -/
def reported_ids (evs : List Event) : List String :=
  evs.filterMap fun e =>
    match e with
    | Event.reportResult _ id _ => some id
    | _ => none

/-! ### The spec's 35-second reference scenario

Intervals {heartbeat 30 s, metrics 30 s, script-poll 10 s}; one task is
returned by the poll at `t0 + 10` and completes in 1 s with exit code 0
and stdout `"ok"`; every other poll returns no work; every send succeeds.
The iteration times reflect the code's own pacing: the 1 s
`psutil.cpu_percent(interval=1)` sampling inside a metrics push, the 1 s
script execution, and the 1 s sleep ending every iteration. -/

/-- An iteration on which all duties that fire succeed and the poll
returns no work. -/
def idleTick (t : Nat) : TickEnv :=
  { now := t, hb := HeartbeatOutcome.sent, metrics := MetricsOutcome.pushed
    poll := PollResponse.success [] }

/-- The scenario's single task (concrete representative). -/
def okTask : ScriptTask :=
  { executionId := "exec-1", scriptName := "task", content := "echo ok"
    scriptType := some "bash" }

/-- A second concrete task, distinguishable from `okTask`. -/
def task2 : ScriptTask :=
  { executionId := "exec-2", scriptName := "task2", content := "echo ok"
    scriptType := some "bash" }

/-- The iteration on which the poll returns `okTask`, which runs for 1 s
and completes with exit code 0, stdout `"ok"`, empty stderr, and whose
result post succeeds. -/
def scriptTick (t : Nat) : TickEnv :=
  { now := t, hb := HeartbeatOutcome.sent, metrics := MetricsOutcome.pushed
    poll := PollResponse.success
      [⟨okTask, ScriptBehavior.runs 1 0 "ok" "", PostOutcome.ok,
        PostOutcome.ok⟩] }

/-- The loop iterations of the 35-second reference run started at
wall-clock second `t0`. -/
def scenarioTicks (t0 : Nat) : List TickEnv :=
  [idleTick (t0 + 0), idleTick (t0 + 2), idleTick (t0 + 3),
   idleTick (t0 + 4), idleTick (t0 + 5), idleTick (t0 + 6),
   idleTick (t0 + 7), idleTick (t0 + 8), idleTick (t0 + 9),
   scriptTick (t0 + 10),
   idleTick (t0 + 12), idleTick (t0 + 13), idleTick (t0 + 14),
   idleTick (t0 + 15), idleTick (t0 + 16), idleTick (t0 + 17),
   idleTick (t0 + 18), idleTick (t0 + 19), idleTick (t0 + 20),
   idleTick (t0 + 21), idleTick (t0 + 22), idleTick (t0 + 23),
   idleTick (t0 + 24), idleTick (t0 + 25), idleTick (t0 + 26),
   idleTick (t0 + 27), idleTick (t0 + 28), idleTick (t0 + 29),
   idleTick (t0 + 30),
   idleTick (t0 + 32), idleTick (t0 + 33), idleTick (t0 + 34),
   idleTick (t0 + 35)]

/-- A registration answer that succeeds (status 200, both fields
present). -/
def regOk : RegisterOutcome :=
  RegisterOutcome.response 200 (some "agent-1") (some "server-1")

/-- A 10001-character exception description (one character longer than
the stderr cap). -/
def longErrMsg : String := ⟨List.replicate 10001 'a'⟩

end Overwatch
namespace Overwatch

/-! ## Shared helper lemmas -/

/-- `reported_ids` distributes over trace concatenation. -/
theorem reported_ids_append (l₁ l₂ : List Event) :
    reported_ids (l₁ ++ l₂) = reported_ids l₁ ++ reported_ids l₂ := by
  simp [reported_ids, List.filterMap_append]

/-- Every event `_execute_script` emits is a result post carrying its
task's execution id. -/
theorem execute_script_shape (now : Nat) (task : ScriptTask)
    (b : ScriptBehavior) (p1 p2 : PostOutcome) :
    ∀ e ∈ (execute_script now task b p1 p2).1,
      ∃ r, e = Event.reportResult now task.executionId r := by
  intro e he
  cases b with
  | runs d rc out err =>
    by_cases h : SCRIPT_TIMEOUT < d <;> cases p1 <;> cases p2 <;>
      simp [execute_script, subprocess_run, h] at he <;>
      first
        | exact ⟨_, he⟩
        | (rcases he with he | he <;> exact ⟨_, he⟩)
  | raises msg =>
    cases p1 <;> cases p2 <;>
      simp [execute_script, subprocess_run] at he <;> exact ⟨_, he⟩

/-- `_execute_script` emits only duty events. -/
theorem execute_script_duty (now : Nat) (task : ScriptTask)
    (b : ScriptBehavior) (p1 p2 : PostOutcome) :
    ∀ e ∈ (execute_script now task b p1 p2).1, isDutyEvent e = true := by
  intro e he
  obtain ⟨r, rfl⟩ := execute_script_shape now task b p1 p2 e he
  rfl

/-- When its first result post goes through, `_execute_script` posts
exactly once and returns normally. -/
theorem execute_script_post_ok (now : Nat) (task : ScriptTask)
    (b : ScriptBehavior) (p2 : PostOutcome) :
    ∃ r, execute_script now task b PostOutcome.ok p2 =
      ([Event.reportResult now task.executionId r], none) := by
  cases b with
  | runs d rc out err =>
    by_cases h : SCRIPT_TIMEOUT < d
    · refine ⟨⟨-1, "", some "Execution timed out"⟩, ?_⟩
      simp [execute_script, subprocess_run, h]
    · refine ⟨⟨rc, pyTake 50000 out,
        if err = "" then none else some (pyTake 10000 err)⟩, ?_⟩
      simp [execute_script, subprocess_run, h]
  | raises msg => exact ⟨⟨-1, "", some msg⟩, rfl⟩

/-- Every `_execute_script` trace is a nonempty run of posts of the
task's execution id (one post, or two when the `try`-body post failed). -/
theorem reported_ids_execute_script (now : Nat) (task : ScriptTask)
    (b : ScriptBehavior) (p1 p2 : PostOutcome) :
    ∃ n, 1 ≤ n ∧ reported_ids (execute_script now task b p1 p2).1 =
      List.replicate n task.executionId := by
  cases b with
  | runs d rc out err =>
    by_cases h : SCRIPT_TIMEOUT < d
    · refine ⟨1, by norm_num, ?_⟩
      cases p1 <;> cases p2 <;>
        simp [execute_script, subprocess_run, h, reported_ids,
          List.replicate]
    · cases p1 with
      | ok =>
        refine ⟨1, by norm_num, ?_⟩
        cases p2 <;>
          simp [execute_script, subprocess_run, h, reported_ids,
            List.replicate]
      | raises e =>
        refine ⟨2, by norm_num, ?_⟩
        cases p2 <;>
          simp [execute_script, subprocess_run, h, reported_ids,
            List.replicate]
  | raises msg =>
    refine ⟨1, by norm_num, ?_⟩
    cases p1 <;> cases p2 <;>
      simp [execute_script, subprocess_run, reported_ids, List.replicate]

/-- Unfolding the script loop when a task's run returns normally. -/
theorem execute_loop_cons_ok (now : Nat) (tr : TaskRun)
    (rest : List TaskRun) (evs : List Event)
    (hx : execute_script now tr.task tr.behavior tr.post1 tr.post2 =
      (evs, none)) :
    execute_loop now (tr :: rest) = evs ++ execute_loop now rest := by
  rw [execute_loop, hx]

/-- Unfolding the script loop when a task's run propagates an exception:
the remaining tasks are skipped. -/
theorem execute_loop_cons_exn (now : Nat) (tr : TaskRun)
    (rest : List TaskRun) (evs : List Event) (m : String)
    (hx : execute_script now tr.task tr.behavior tr.post1 tr.post2 =
      (evs, some m)) :
    execute_loop now (tr :: rest) = evs := by
  rw [execute_loop, hx]

/-- Every event of the script loop is a result post. -/
theorem execute_loop_shape (now : Nat) (ts : List TaskRun) :
    ∀ e ∈ execute_loop now ts, ∃ id r, e = Event.reportResult now id r := by
  induction ts with
  | nil => intro e he; simp [execute_loop] at he
  | cons tr rest ih =>
    intro e he
    rcases hx : execute_script now tr.task tr.behavior tr.post1 tr.post2
      with ⟨evs, exn⟩
    cases exn with
    | none =>
      rw [execute_loop_cons_ok now tr rest evs hx, List.mem_append] at he
      rcases he with he | he
      · obtain ⟨r, hr⟩ := execute_script_shape now tr.task tr.behavior
          tr.post1 tr.post2 e (by rw [hx]; exact he)
        exact ⟨tr.task.executionId, r, hr⟩
      · exact ih e he
    | some m =>
      rw [execute_loop_cons_exn now tr rest evs m hx] at he
      obtain ⟨r, hr⟩ := execute_script_shape now tr.task tr.behavior
        tr.post1 tr.post2 e (by rw [hx]; exact he)
      exact ⟨tr.task.executionId, r, hr⟩

/-- Every event of the script-poll duty is a script-duty event. -/
theorem poll_events_script (now : Nat) (resp : PollResponse) :
    ∀ e ∈ poll_and_execute_scripts now resp, isScriptEv e = true := by
  intro e he
  cases resp with
  | badStatus c =>
    simp [poll_and_execute_scripts] at he
    subst he; rfl
  | transportError m =>
    simp [poll_and_execute_scripts] at he
    subst he; rfl
  | success ts =>
    simp only [poll_and_execute_scripts, List.mem_cons] at he
    rcases he with rfl | he
    · rfl
    · obtain ⟨id, r, rfl⟩ := execute_loop_shape now ts e he
      rfl

/-- Script-duty events are duty events. -/
theorem script_implies_duty (e : Event) :
    isScriptEv e = true → isDutyEvent e = true := by
  cases e <;> simp [isScriptEv, isDutyEvent]

/-- A loop iteration emits only duty events (no registration, no backoff
sleep). -/
theorem tick_duty (st : LoopState) (env : TickEnv) :
    ∀ e ∈ (tick st env).2, isDutyEvent e = true := by
  obtain ⟨n, hb, mo, po⟩ := env
  intro e he
  simp only [tick, List.mem_append] at he
  rcases he with (he | he) | he
  · unfold heartbeatStep at he
    split at he
    · cases hb <;> simp [heartbeat] at he <;> simp [he, isDutyEvent]
    · simp at he
  · unfold metricsStep at he
    split at he
    · cases mo <;> simp [collect_and_push_metrics] at he <;>
        simp [he, isDutyEvent]
    · simp at he
  · unfold scriptPollStep at he
    split at he
    · exact script_implies_duty e (poll_events_script n po e he)
    · simp at he

/-- The whole run loop emits only duty events. -/
theorem runLoop_duty (ticks : List TickEnv) :
    ∀ st : LoopState, ∀ e ∈ runLoop st ticks, isDutyEvent e = true := by
  induction ticks with
  | nil => intro st e he; simp [runLoop] at he
  | cons env rest ih =>
    intro st e he
    simp only [runLoop, List.mem_append] at he
    rcases he with he | he
    · exact tick_duty st env e he
    · exact ih _ e he

/-- The loop never attempts a registration. -/
theorem runLoop_countP_register (st : LoopState) (ticks : List TickEnv) :
    (runLoop st ticks).countP isRegisterEv = 0 := by
  rw [List.countP_eq_zero]
  intro e he
  have := runLoop_duty ticks st e he
  cases e <;> simp_all [isDutyEvent, isRegisterEv]

/-- The loop never sleeps the bootstrap backoff. -/
theorem runLoop_countP_sleep (st : LoopState) (ticks : List TickEnv) :
    (runLoop st ticks).countP isSleepEv = 0 := by
  rw [List.countP_eq_zero]
  intro e he
  have := runLoop_duty ticks st e he
  cases e <;> simp_all [isDutyEvent, isSleepEv]

/-- The `pyTake` truncation never exceeds its cap. -/
theorem pyTake_length_le (n : Nat) (s : String) : (pyTake n s).length ≤ n := by
  show (s.data.take n).length ≤ n
  simp [List.length_take]

/-- Two characters survive a 50000-character cap unchanged. -/
theorem pyTake_ok : pyTake 50000 "ok" = "ok" := rfl

/-- An empty captured stderr is reported as JSON `null`. -/
theorem stderr_empty :
    (if ("" : String) = "" then none else some (pyTake 10000 "")) =
      (none : Option String) := rfl

/-- The new `last_heartbeat` stamp depends only on due-ness, never on how
the heartbeat duty's body went. -/
theorem heartbeatStep_snd (last now : Nat) (oc : HeartbeatOutcome) :
    (heartbeatStep last now oc).2 =
      if dueFor HEARTBEAT_INTERVAL last now then now else last := by
  unfold heartbeatStep
  split <;> rfl

/-- The new `last_metrics` stamp depends only on due-ness, never on how
the metrics duty's body went. -/
theorem metricsStep_snd (last now : Nat) (oc : MetricsOutcome) :
    (metricsStep last now oc).2 =
      if dueFor METRICS_INTERVAL last now then now else last := by
  unfold metricsStep
  split <;> rfl

/-- The new `last_script_poll` stamp depends only on due-ness, never on
the poll's response or the scripts' outcomes. -/
theorem scriptPollStep_snd (last now : Nat) (resp : PollResponse) :
    (scriptPollStep last now resp).2 =
      if dueFor SCRIPT_POLL_INTERVAL last now then now else last := by
  unfold scriptPollStep
  split <;> rfl

/-- The heartbeat events of an iteration are exactly its heartbeat leg's
events, whatever the other duties did. -/
theorem tick_filter_hb (st : LoopState) (env : TickEnv) :
    (tick st env).2.filter isHeartbeatEv =
      (heartbeatStep st.lastHeartbeat env.now env.hb).1 := by
  obtain ⟨n, hb, mo, po⟩ := env
  simp only [tick, List.filter_append]
  have h1 : (heartbeatStep st.lastHeartbeat n hb).1.filter isHeartbeatEv =
      (heartbeatStep st.lastHeartbeat n hb).1 := by
    unfold heartbeatStep
    split
    · cases hb <;> rfl
    · rfl
  have h2 : (metricsStep st.lastMetrics n mo).1.filter isHeartbeatEv = [] := by
    unfold metricsStep
    split
    · cases mo <;> rfl
    · rfl
  have h3 : (scriptPollStep st.lastScriptPoll n po).1.filter
      isHeartbeatEv = [] := by
    unfold scriptPollStep
    split
    · rw [List.filter_eq_nil_iff]
      intro e he
      have hs := poll_events_script n po e he
      cases e <;> simp_all [isScriptEv, isHeartbeatEv]
    · rfl
  rw [h1, h2, h3]
  simp

/-- The metrics events of an iteration are exactly its metrics leg's
events, whatever the other duties did. -/
theorem tick_filter_metrics (st : LoopState) (env : TickEnv) :
    (tick st env).2.filter isMetricsEv =
      (metricsStep st.lastMetrics env.now env.metrics).1 := by
  obtain ⟨n, hb, mo, po⟩ := env
  simp only [tick, List.filter_append]
  have h1 : (heartbeatStep st.lastHeartbeat n hb).1.filter isMetricsEv =
      [] := by
    unfold heartbeatStep
    split
    · cases hb <;> rfl
    · rfl
  have h2 : (metricsStep st.lastMetrics n mo).1.filter isMetricsEv =
      (metricsStep st.lastMetrics n mo).1 := by
    unfold metricsStep
    split
    · cases mo <;> rfl
    · rfl
  have h3 : (scriptPollStep st.lastScriptPoll n po).1.filter
      isMetricsEv = [] := by
    unfold scriptPollStep
    split
    · rw [List.filter_eq_nil_iff]
      intro e he
      have hs := poll_events_script n po e he
      cases e <;> simp_all [isScriptEv, isMetricsEv]
    · rfl
  rw [h1, h2, h3]
  simp

/-- The script-duty events of an iteration are exactly its script-poll
leg's events, whatever the other duties did. -/
theorem tick_filter_script (st : LoopState) (env : TickEnv) :
    (tick st env).2.filter isScriptEv =
      (scriptPollStep st.lastScriptPoll env.now env.poll).1 := by
  obtain ⟨n, hb, mo, po⟩ := env
  simp only [tick, List.filter_append]
  have h1 : (heartbeatStep st.lastHeartbeat n hb).1.filter isScriptEv =
      [] := by
    unfold heartbeatStep
    split
    · cases hb <;> rfl
    · rfl
  have h2 : (metricsStep st.lastMetrics n mo).1.filter isScriptEv = [] := by
    unfold metricsStep
    split
    · cases mo <;> rfl
    · rfl
  have h3 : (scriptPollStep st.lastScriptPoll n po).1.filter isScriptEv =
      (scriptPollStep st.lastScriptPoll n po).1 := by
    unfold scriptPollStep
    split
    · rw [List.filter_eq_self]
      intro e he
      exact poll_events_script n po e he
    · rfl
  rw [h1, h2, h3]
  simp

/-- When the heartbeat duty is due and healthy, its POST appears in the
iteration's trace. -/
theorem heartbeat_mem_tick (st : LoopState) (env : TickEnv)
    (hm : env.hb = HeartbeatOutcome.sent)
    (hdue : dueFor HEARTBEAT_INTERVAL st.lastHeartbeat env.now) :
    Event.heartbeat env.now ∈ (tick st env).2 := by
  obtain ⟨n, hb, mo, po⟩ := env
  simp only at hm hdue
  subst hm
  simp only [tick, List.mem_append]
  left; left
  unfold heartbeatStep
  rw [if_pos hdue]
  simp [heartbeat]

/-- When the metrics duty is due and healthy, its POST appears in the
iteration's trace. -/
theorem metricsPush_mem_tick (st : LoopState) (env : TickEnv)
    (hm : env.metrics = MetricsOutcome.pushed)
    (hdue : dueFor METRICS_INTERVAL st.lastMetrics env.now) :
    Event.metricsPush env.now ∈ (tick st env).2 := by
  obtain ⟨n, hb, mo, po⟩ := env
  simp only at hm hdue
  subst hm
  simp only [tick, List.mem_append]
  left; right
  unfold metricsStep
  rw [if_pos hdue]
  simp [collect_and_push_metrics]

/-- When the script-poll duty is due, its GET appears in the iteration's
trace whatever the server answers. -/
theorem scriptPoll_mem_tick (st : LoopState) (env : TickEnv)
    (hdue : dueFor SCRIPT_POLL_INTERVAL st.lastScriptPoll env.now) :
    Event.scriptPoll env.now ∈ (tick st env).2 := by
  obtain ⟨n, hb, mo, po⟩ := env
  simp only at hdue
  simp only [tick, List.mem_append]
  right
  unfold scriptPollStep
  rw [if_pos hdue]
  cases po <;> simp [poll_and_execute_scripts]

end Overwatch
namespace Overwatch

/-! ## The claims -/

/-- Counterexample to claim C1 as stated: when the script completes
normally but the `try`-body result post raises, the generic handler posts
a second result for the same execution id — two ScriptResults are
produced and posted for one accepted task, the second mislabelling the
successful run as exit −1. -/
theorem c1_double_post_on_report_failure :
    (execute_script 0 okTask (ScriptBehavior.runs 1 0 "ok" "")
        (PostOutcome.raises "connection reset") PostOutcome.ok).1 =
      [Event.reportResult 0 "exec-1"
        { exitCode := 0, stdout := "ok", stderr := none },
       Event.reportResult 0 "exec-1"
        { exitCode := -1, stdout := "", stderr := some "connection reset" }]
    ∧ reported_ids (execute_script 0 okTask (ScriptBehavior.runs 1 0 "ok" "")
        (PostOutcome.raises "connection reset") PostOutcome.ok).1 =
      ["exec-1", "exec-1"] := by
  exact ⟨rfl, rfl⟩

/-- Claim C1 (amended): when the result-report send does not fail,
exactly one ScriptResult carrying the task's execution id is produced and
posted, in all three outcomes (completion, timeout, runner-internal
exception), and `_execute_script` returns without propagating; in
general every run posts at least once and every post carries the task's
execution id, but a failing `try`-body post causes a second post for the
same id. -/
theorem c1_one_result_per_task (now : Nat) (task : ScriptTask)
    (b : ScriptBehavior) (p1 p2 : PostOutcome) :
    (∃ r, execute_script now task b PostOutcome.ok p2 =
      ([Event.reportResult now task.executionId r], none))
    ∧ ∃ n, 1 ≤ n ∧
        reported_ids (execute_script now task b p1 p2).1 =
          List.replicate n task.executionId :=
  ⟨execute_script_post_ok now task b p2,
   reported_ids_execute_script now task b p1 p2⟩

/-- Claim C2: a script whose wall-clock duration exceeds the fixed
300-second timeout is reported as exitCode −1, empty stdout, and the fixed
"Execution timed out" stderr — independent of whatever output the script
produced before being killed, and whatever the report transport does. -/
theorem c2_timeout_result (now : Nat) (task : ScriptTask) (d : Nat)
    (rc : Int) (out err : String) (p1 p2 : PostOutcome)
    (hd : SCRIPT_TIMEOUT < d) :
    (execute_script now task (ScriptBehavior.runs d rc out err) p1 p2).1 =
      [Event.reportResult now task.executionId
        { exitCode := -1, stdout := ""
          stderr := some "Execution timed out" }] := by
  cases p1 <;> cases p2 <;> simp [execute_script, subprocess_run, hd]

/-- Witness for C2 at a concrete 301-second script. -/
theorem c2_timeout_result_instance :
    SCRIPT_TIMEOUT < 301 ∧
    (execute_script 5 okTask (ScriptBehavior.runs 301 0 "late out" "late err")
        PostOutcome.ok PostOutcome.ok).1 =
      [Event.reportResult 5 "exec-1"
        { exitCode := -1, stdout := ""
          stderr := some "Execution timed out" }] :=
  ⟨by decide, c2_timeout_result 5 okTask 301 0 "late out" "late err"
    PostOutcome.ok PostOutcome.ok (by decide)⟩

/-- Claim C3: a failed first registration is followed by the fixed 30 s
backoff and exactly one retry; two failures exit the process with code 1
(and no duty ever runs); success on the retry enters the loop; the exit
code is 0 exactly when bootstrap succeeded (graceful shutdown). -/
theorem c3_bootstrap_retry_and_exit_codes (o1 o2 : RegisterOutcome)
    (ticks : List TickEnv) :
    ((run o1 o2 ticks).events.countP isRegisterEv =
      if register_succeeds o1 then 1 else 2)
    ∧ ((run o1 o2 ticks).events.countP isSleepEv =
      if register_succeeds o1 then 0 else 1)
    ∧ ((run o1 o2 ticks).exitCode =
      if register_succeeds o1 = false ∧ register_succeeds o2 = false then 1
      else 0)
    ∧ (register_succeeds o1 = false → register_succeeds o2 = true →
        (run o1 o2 ticks).events =
          Event.registerAttempt false :: Event.sleepBackoff 30 ::
            Event.registerAttempt true :: runLoop initState ticks) := by
  by_cases h1 : register_succeeds o1 <;> by_cases h2 : register_succeeds o2 <;>
    simp [run, h1, h2, List.countP_cons, runLoop_countP_register,
      runLoop_countP_sleep, isRegisterEv, isSleepEv]

/-- Witness for C3: a concrete failed-then-successful bootstrap. -/
theorem c3_bootstrap_instance :
    (run (RegisterOutcome.transportError "conn refused") regOk []).events =
      Event.registerAttempt false :: Event.sleepBackoff 30 ::
        Event.registerAttempt true :: runLoop initState [] :=
  (c3_bootstrap_retry_and_exit_codes
    (RegisterOutcome.transportError "conn refused") regOk []).2.2.2 rfl rfl

/-- Counterexample to claim C4 as stated: in the reference scenario
started at wall-clock second 1000 the code performs two heartbeats, two
metrics pushes and four script polls — not one, one and three — because
all three duties also fire on the very first iteration. -/
theorem c4_reference_run_falsified :
    ((run regOk regOk (scenarioTicks 1000)).events.countP isHeartbeatEv = 2)
    ∧ ((run regOk regOk (scenarioTicks 1000)).events.countP isMetricsEv = 2)
    ∧ ((run regOk regOk (scenarioTicks 1000)).events.countP
        isScriptPollEv = 4) := by
  refine ⟨?_, ?_, ?_⟩ <;> rfl

/-- Claim C4 (amended): in the 35-second reference run the agent performs
exactly one register; additionally all three duties fire on the first
iteration (wall-clock time minus the zero-initialised stamps exceeds every
interval), so heartbeat and metrics-push happen at t = 0 and t = 30,
script-polls at t = 0/10/20/30, and the single task returned at t = 10
is reported with exitCode 0 and stdout "ok" within that tick (≈ t = 11). -/
theorem c4_reference_run_trace (t0 : Nat) (h : 30 ≤ t0)
    (o2 : RegisterOutcome) :
    (run regOk o2 (scenarioTicks t0)).events =
      [Event.registerAttempt true,
       Event.heartbeat t0, Event.metricsPush t0, Event.scriptPoll t0,
       Event.scriptPoll (t0 + 10),
       Event.reportResult (t0 + 10) "exec-1"
         { exitCode := 0, stdout := "ok", stderr := none },
       Event.scriptPoll (t0 + 20),
       Event.heartbeat (t0 + 30), Event.metricsPush (t0 + 30),
       Event.scriptPoll (t0 + 30)] := by
  have h10 : 10 ≤ t0 := by omega
  simp [run, register_succeeds, regOk, scenarioTicks, idleTick, scriptTick,
    runLoop, tick, heartbeatStep, metricsStep, scriptPollStep, dueFor,
    heartbeat, collect_and_push_metrics, poll_and_execute_scripts,
    execute_loop, execute_script, subprocess_run, okTask, initState,
    pyTake_ok, stderr_empty, Nat.add_sub_cancel_left, Nat.add_sub_add_left,
    h, h10, HEARTBEAT_INTERVAL, METRICS_INTERVAL, SCRIPT_POLL_INTERVAL,
    SCRIPT_TIMEOUT]

/-- Witness for the amended C4 at wall-clock start 1000. -/
theorem c4_reference_run_instance :
    (run regOk regOk (scenarioTicks 1000)).events =
      [Event.registerAttempt true,
       Event.heartbeat 1000, Event.metricsPush 1000, Event.scriptPoll 1000,
       Event.scriptPoll (1000 + 10),
       Event.reportResult (1000 + 10) "exec-1"
         { exitCode := 0, stdout := "ok", stderr := none },
       Event.scriptPoll (1000 + 20),
       Event.heartbeat (1000 + 30), Event.metricsPush (1000 + 30),
       Event.scriptPoll (1000 + 30)] :=
  c4_reference_run_trace 1000 (by decide) regOk

/-- Counterexample to claim C5 as stated: a 200 response whose body lacks
`agent_id` makes `register` succeed with no AgentIdentity, the run loop is
entered, and a heartbeat duty runs while `self.agent_id` is `None`. -/
theorem c5_register_without_identity :
    register_succeeds (RegisterOutcome.response 200 none none) = true
    ∧ register_agent_id none (RegisterOutcome.response 200 none none) = none
    ∧ Event.heartbeat 100 ∈
        (run (RegisterOutcome.response 200 none none)
          (RegisterOutcome.response 200 none none) [idleTick 100]).events
    ∧ agent_id_after (RegisterOutcome.response 200 none none)
        (RegisterOutcome.response 200 none none) = none :=
  ⟨rfl, rfl, by decide, rfl⟩

/-- Claim C5 (amended): duties run only after a successful `register`, and
`register` succeeds exactly on an HTTP 200 with a parseable body; the
recorded agent id is the body's optional `agent_id` field, which can be
absent even on success. -/
theorem c5_loop_after_successful_register :
    (∀ (o1 o2 : RegisterOutcome) (ticks : List TickEnv) (e : Event),
        e ∈ (run o1 o2 ticks).events → isDutyEvent e = true →
        register_succeeds o1 = true ∨ register_succeeds o2 = true)
    ∧ (∀ o : RegisterOutcome, register_succeeds o = true ↔
        ∃ aid sn, o = RegisterOutcome.response 200 aid sn) := by
  constructor
  · intro o1 o2 ticks e he hd
    by_cases h1 : register_succeeds o1
    · exact Or.inl h1
    by_cases h2 : register_succeeds o2
    · exact Or.inr h2
    exfalso
    simp [run, h1, h2] at he
    rcases he with he | he | he <;> simp [he, isDutyEvent] at hd
  · intro o
    cases o with
    | response code aid sn => simp [register_succeeds]
    | transportError m => simp [register_succeeds]

/-- Witness for the amended C5: a concrete duty event forces a successful
registration. -/
theorem c5_loop_after_successful_register_instance :
    register_succeeds regOk = true ∨
    register_succeeds (RegisterOutcome.transportError "x") = true :=
  c5_loop_after_successful_register.1 regOk
    (RegisterOutcome.transportError "x") [idleTick 100]
    (Event.heartbeat 100) (by decide) (by decide)

/-- Counterexample to claim C6 as stated: a runner-internal exception
whose description is 10001 characters long is reported verbatim — the
internal-failure path applies no stderr truncation. -/
theorem c6_untruncated_failure_stderr :
    (execute_script 0 okTask (ScriptBehavior.raises longErrMsg)
        PostOutcome.ok PostOutcome.ok).1 =
      [Event.reportResult 0 "exec-1"
        { exitCode := -1, stdout := "", stderr := some longErrMsg }]
    ∧ longErrMsg.length = 10001 := by
  constructor
  · rfl
  · show (List.replicate 10001 'a').length = 10001
    rw [List.length_replicate]

/-- Claim C6 (amended): only the normal-completion path truncates, stdout
to 50000 and stderr to 10000 characters (empty stderr becomes `null`);
the timeout path reports the fixed short message, and the internal-failure
path reports the exception description untruncated with empty stdout. -/
theorem c6_truncation_by_path (now : Nat) (task : ScriptTask) (d : Nat)
    (rc : Int) (out err msg : String) (p2 : PostOutcome)
    (hd : d ≤ SCRIPT_TIMEOUT) :
    ((execute_script now task (ScriptBehavior.runs d rc out err)
        PostOutcome.ok p2).1 =
      [Event.reportResult now task.executionId
        { exitCode := rc, stdout := pyTake 50000 out
          stderr := if err = "" then none else some (pyTake 10000 err) }])
    ∧ (pyTake 50000 out).length ≤ 50000
    ∧ (∀ s, (if err = "" then none else some (pyTake 10000 err)) = some s →
        s.length ≤ 10000)
    ∧ (∀ p1 q2 : PostOutcome,
        (execute_script now task (ScriptBehavior.raises msg) p1 q2).1 =
          [Event.reportResult now task.executionId
            { exitCode := -1, stdout := "", stderr := some msg }]) := by
  refine ⟨?_, pyTake_length_le 50000 out, ?_, ?_⟩
  · simp [execute_script, subprocess_run, Nat.not_lt.mpr hd]
  · intro s hs
    by_cases he : err = ""
    · simp [he] at hs
    · simp only [he, if_neg, ite_false] at hs
      cases hs
      exact pyTake_length_le 10000 err
  · intro p1 q2
    cases p1 <;> cases q2 <;> simp [execute_script, subprocess_run]

/-- Witness for the amended C6 at a concrete fast script and a concrete
exception. -/
theorem c6_truncation_by_path_instance :
    ((execute_script 3 okTask (ScriptBehavior.runs 1 7 "out" "err")
        PostOutcome.ok PostOutcome.ok).1 =
      [Event.reportResult 3 "exec-1"
        { exitCode := 7, stdout := pyTake 50000 "out"
          stderr := if ("err" : String) = "" then none
            else some (pyTake 10000 "err") }])
    ∧ (pyTake 50000 "out").length ≤ 50000
    ∧ (∀ s, (if ("err" : String) = "" then none
        else some (pyTake 10000 "err")) = some s → s.length ≤ 10000)
    ∧ (∀ p1 q2 : PostOutcome,
        (execute_script 3 okTask (ScriptBehavior.raises "oops") p1 q2).1 =
          [Event.reportResult 3 "exec-1"
            { exitCode := -1, stdout := "", stderr := some "oops" }]) :=
  c6_truncation_by_path 3 okTask 1 7 "out" "err" "oops" PostOutcome.ok
    (by decide)

/-- Claim C7: interpreter dispatch is total in `scriptType`: bash and
shell select bash, powershell selects powershell, python selects python,
and every other value — including an absent `script_type` — falls back to
the default bash interpreter instead of erroring. -/
theorem c7_dispatch_total :
    interpreterFor none = Interp.bash
    ∧ interpreterFor (some "bash") = Interp.bash
    ∧ interpreterFor (some "shell") = Interp.bash
    ∧ interpreterFor (some "powershell") = Interp.powershell
    ∧ interpreterFor (some "python") = Interp.python
    ∧ ∀ s : String, s ≠ "bash" → s ≠ "shell" → s ≠ "powershell" →
        s ≠ "python" → interpreterFor (some s) = Interp.bash := by
  refine ⟨rfl, rfl, rfl, rfl, rfl, ?_⟩
  intro s h1 h2 h3 h4
  simp [interpreterFor, h1, h2, h3, h4]

/-- Witness for C7: the unrecognized type "ruby" falls back to bash. -/
theorem c7_dispatch_total_instance :
    interpreterFor (some "ruby") = Interp.bash :=
  c7_dispatch_total.2.2.2.2.2 "ruby" (by decide) (by decide) (by decide)
    (by decide)

/-- Claim C8: a failure inside any one duty's invocation is contained.
With the same clock, the outcomes of the three duties never influence the
due-time bookkeeping at all; each duty's events in the tick depend only
on that duty's own outcome (so varying one duty's failure leaves the
other two duties' events unchanged); and each duty is attempted again at
its next interval boundary regardless of what happened before. -/
theorem c8_duty_failure_contained (st : LoopState) (e₁ e₂ : TickEnv)
    (hnow : e₁.now = e₂.now) :
    ((tick st e₁).1 = (tick st e₂).1)
    ∧ (e₁.hb = e₂.hb →
        (tick st e₁).2.filter isHeartbeatEv =
          (tick st e₂).2.filter isHeartbeatEv)
    ∧ (e₁.metrics = e₂.metrics →
        (tick st e₁).2.filter isMetricsEv =
          (tick st e₂).2.filter isMetricsEv)
    ∧ (e₁.poll = e₂.poll →
        (tick st e₁).2.filter isScriptEv = (tick st e₂).2.filter isScriptEv)
    ∧ (∀ env : TickEnv,
        dueFor HEARTBEAT_INTERVAL (tick st e₁).1.lastHeartbeat env.now →
        Event.heartbeat env.now ∈
          (tick (tick st e₁).1 { env with hb := HeartbeatOutcome.sent }).2)
    ∧ (∀ env : TickEnv,
        dueFor METRICS_INTERVAL (tick st e₁).1.lastMetrics env.now →
        Event.metricsPush env.now ∈
          (tick (tick st e₁).1
            { env with metrics := MetricsOutcome.pushed }).2)
    ∧ (∀ env : TickEnv,
        dueFor SCRIPT_POLL_INTERVAL (tick st e₁).1.lastScriptPoll env.now →
        Event.scriptPoll env.now ∈ (tick (tick st e₁).1 env).2) := by
  refine ⟨?_, ?_, ?_, ?_, ?_, ?_, ?_⟩
  · obtain ⟨n₁, hb₁, mo₁, po₁⟩ := e₁
    obtain ⟨n₂, hb₂, mo₂, po₂⟩ := e₂
    simp only at hnow
    subst hnow
    simp [tick, heartbeatStep_snd, metricsStep_snd, scriptPollStep_snd]
  · intro hhb
    rw [tick_filter_hb, tick_filter_hb, hnow, hhb]
  · intro hm
    rw [tick_filter_metrics, tick_filter_metrics, hnow, hm]
  · intro hp
    rw [tick_filter_script, tick_filter_script, hnow, hp]
  · intro env hdue
    exact heartbeat_mem_tick _ _ rfl hdue
  · intro env hdue
    exact metricsPush_mem_tick _ _ rfl hdue
  · intro env hdue
    exact scriptPoll_mem_tick _ _ hdue

/-- Witness for C8: a concrete heartbeat failure at t = 100 leaves the
schedule and the other duties' events as if it had succeeded, and the
heartbeat is attempted again at t = 200. -/
theorem c8_duty_failure_contained_instance :
    ((tick initState ⟨100, HeartbeatOutcome.exnDuring "hb down",
        MetricsOutcome.pushed, PollResponse.success []⟩).1 =
      (tick initState ⟨100, HeartbeatOutcome.sent, MetricsOutcome.pushed,
        PollResponse.success []⟩).1)
    ∧ ((tick initState ⟨100, HeartbeatOutcome.exnDuring "hb down",
        MetricsOutcome.pushed, PollResponse.success []⟩).2.filter
          isMetricsEv =
        (tick initState ⟨100, HeartbeatOutcome.sent, MetricsOutcome.pushed,
          PollResponse.success []⟩).2.filter isMetricsEv)
    ∧ ((tick initState ⟨100, HeartbeatOutcome.exnDuring "hb down",
        MetricsOutcome.pushed, PollResponse.success []⟩).2.filter
          isScriptEv =
        (tick initState ⟨100, HeartbeatOutcome.sent, MetricsOutcome.pushed,
          PollResponse.success []⟩).2.filter isScriptEv)
    ∧ Event.heartbeat 200 ∈
        (tick (tick initState ⟨100, HeartbeatOutcome.exnDuring "hb down",
            MetricsOutcome.pushed, PollResponse.success []⟩).1
          { now := 200, hb := HeartbeatOutcome.sent,
            metrics := MetricsOutcome.pushed,
            poll := PollResponse.success [] }).2 := by
  have h := c8_duty_failure_contained initState
    ⟨100, HeartbeatOutcome.exnDuring "hb down", MetricsOutcome.pushed,
      PollResponse.success []⟩
    ⟨100, HeartbeatOutcome.sent, MetricsOutcome.pushed,
      PollResponse.success []⟩ rfl
  exact ⟨h.1, h.2.2.1 rfl, h.2.2.2.1 rfl,
    h.2.2.2.2.1 ⟨200, HeartbeatOutcome.sent, MetricsOutcome.pushed,
      PollResponse.success []⟩ (by decide)⟩

/-- Counterexample to claim C9 as stated: when the first task's result
post raises in handler position, the exception propagates out of
`_execute_script` into the poll's `except`, aborting the loop — the
second returned task is skipped and never reported. -/
theorem c9_abort_skips_tasks :
    reported_ids (poll_and_execute_scripts 0 (PollResponse.success
      [⟨okTask, ScriptBehavior.runs 1 0 "ok" "",
        PostOutcome.raises "connection reset",
        PostOutcome.raises "connection reset"⟩,
       ⟨task2, ScriptBehavior.runs 1 0 "ok" "", PostOutcome.ok,
        PostOutcome.ok⟩])) = ["exec-1", "exec-1"]
    ∧ "exec-2" ∉ reported_ids (poll_and_execute_scripts 0
        (PollResponse.success
          [⟨okTask, ScriptBehavior.runs 1 0 "ok" "",
            PostOutcome.raises "connection reset",
            PostOutcome.raises "connection reset"⟩,
           ⟨task2, ScriptBehavior.runs 1 0 "ok" "", PostOutcome.ok,
            PostOutcome.ok⟩])) := by
  exact ⟨rfl, by decide⟩

/-- Claim C9 (amended): when no result post's transport fails, every task
returned by a successful poll is executed synchronously and its result
reported before the next task is started, in the returned sequence order
— the reported execution ids are exactly the returned tasks' ids in
order.  (A result post raising in handler position instead aborts the
remaining tasks of that poll.) -/
theorem c9_all_tasks_reported_when_posts_ok (now : Nat)
    (ts : List TaskRun) (h : ∀ tr ∈ ts, tr.post1 = PostOutcome.ok) :
    reported_ids (poll_and_execute_scripts now (PollResponse.success ts)) =
      ts.map fun tr => tr.task.executionId := by
  have key : ∀ l : List TaskRun, (∀ tr ∈ l, tr.post1 = PostOutcome.ok) →
      reported_ids (execute_loop now l) =
        l.map fun tr => tr.task.executionId := by
    intro l
    induction l with
    | nil => intro _; rfl
    | cons tr rest ih =>
      intro hl
      have h1 : tr.post1 = PostOutcome.ok :=
        hl tr (List.mem_cons_self tr rest)
      obtain ⟨r, hr⟩ := execute_script_post_ok now tr.task tr.behavior
        tr.post2
      rw [← h1] at hr
      rw [execute_loop_cons_ok now tr rest _ hr, reported_ids_append,
        ih (fun x hx => hl x (List.mem_cons_of_mem tr hx)), List.map_cons]
      rfl
  rw [show poll_and_execute_scripts now (PollResponse.success ts) =
        Event.scriptPoll now :: execute_loop now ts from rfl]
  rw [show reported_ids (Event.scriptPoll now :: execute_loop now ts) =
      reported_ids (execute_loop now ts) from rfl]
  exact key ts h

/-- Witness for the amended C9: two tasks whose posts all succeed are
reported in order. -/
theorem c9_all_tasks_reported_instance :
    reported_ids (poll_and_execute_scripts 7 (PollResponse.success
      [⟨okTask, ScriptBehavior.runs 1 0 "ok" "", PostOutcome.ok,
        PostOutcome.ok⟩,
       ⟨task2, ScriptBehavior.raises "boom", PostOutcome.ok,
        PostOutcome.ok⟩])) = ["exec-1", "exec-2"] :=
  c9_all_tasks_reported_when_posts_ok 7
    [⟨okTask, ScriptBehavior.runs 1 0 "ok" "", PostOutcome.ok,
      PostOutcome.ok⟩,
     ⟨task2, ScriptBehavior.raises "boom", PostOutcome.ok,
      PostOutcome.ok⟩] (by decide)

/-- Claim C10: on the first loop iteration after registration every duty
is due (the stamps are zero-initialised while `now` is wall-clock time, so
whenever at least 30 seconds have elapsed since the epoch all elapsed
times exceed their intervals), all three duties fire, every stamp is set
to `now`, and the script poll is attempted. -/
theorem c10_first_tick_fires_all (env : TickEnv) (h : 30 ≤ env.now) :
    dueFor HEARTBEAT_INTERVAL initState.lastHeartbeat env.now
    ∧ dueFor METRICS_INTERVAL initState.lastMetrics env.now
    ∧ dueFor SCRIPT_POLL_INTERVAL initState.lastScriptPoll env.now
    ∧ (tick initState env).1 = ⟨env.now, env.now, env.now⟩
    ∧ Event.scriptPoll env.now ∈ (tick initState env).2 := by
  have hd1 : dueFor HEARTBEAT_INTERVAL initState.lastHeartbeat env.now := by
    simp [dueFor, HEARTBEAT_INTERVAL, initState]; omega
  have hd2 : dueFor METRICS_INTERVAL initState.lastMetrics env.now := by
    simp [dueFor, METRICS_INTERVAL, initState]; omega
  have hd3 : dueFor SCRIPT_POLL_INTERVAL initState.lastScriptPoll env.now := by
    simp [dueFor, SCRIPT_POLL_INTERVAL, initState]; omega
  refine ⟨hd1, hd2, hd3, ?_, ?_⟩
  · simp [tick, heartbeatStep, metricsStep, scriptPollStep, hd1, hd2, hd3]
  · exact scriptPoll_mem_tick initState env hd3

/-- Witness for C10 at wall-clock second 100000. -/
theorem c10_first_tick_fires_all_instance :
    dueFor HEARTBEAT_INTERVAL initState.lastHeartbeat (idleTick 100000).now
    ∧ dueFor METRICS_INTERVAL initState.lastMetrics (idleTick 100000).now
    ∧ dueFor SCRIPT_POLL_INTERVAL initState.lastScriptPoll
        (idleTick 100000).now
    ∧ (tick initState (idleTick 100000)).1 = ⟨100000, 100000, 100000⟩
    ∧ Event.scriptPoll (idleTick 100000).now ∈
        (tick initState (idleTick 100000)).2 :=
  c10_first_tick_fires_all (idleTick 100000) (by decide)

end Overwatch
